import Mathlib

/-!
Shallow embedding of `src/contract_ui/app.py` (contract-generation-app) and
proofs about its specified behaviour.

Conventions of the embedding:
* Python strings are Lean `String`s; `None`-able values are `Option`s.
* Python `float` parsing is modelled exactly over the decimal grammar as a
  rational number (`ℚ`); the special forms `inf`/`nan` are not modelled, the
  program never feeds them in.
* Exceptions are modelled as `Except`/`Option` results; a caught exception is
  the `.error`/`none` branch of the corresponding match.
* The network is an oracle `HttpRequest → HttpResponse` passed to the client;
  the client returns the list of requests it issued alongside its result.
-/

namespace ContractApp

/-- Characters stripped by Python `str.strip()` as used by this program:
ASCII whitespace plus the no-break space.  (Other Unicode space
characters never occur in the literals or claims of this development.) -/
def pyIsSpace (c : Char) : Bool :=
  c = ' ' || c = '\t' || c = '\n' || c = '\r' || c = '\x0b' || c = '\x0c' || c = '\xa0'

/-- Python `str.strip()`: drop leading and trailing whitespace. -/
def pyStrip (s : String) : String :=
  String.mk (((s.data.dropWhile pyIsSpace).reverse.dropWhile pyIsSpace).reverse)

/-- Python truthiness of a string: non-empty ⟺ truthy. -/
def pyTruthyStr (s : String) : Bool := !s.isEmpty

/-- One fuel unit per consumed character; `fuel = s.length` suffices for a
non-empty pattern, which is the only way the program calls `replace`. -/
def replaceAux (pat repl : List Char) : Nat → List Char → List Char
  | _, [] => []
  | 0, s => s
  | fuel + 1, c :: cs =>
    if pat.isPrefixOf (c :: cs) then
      repl ++ replaceAux pat repl fuel ((c :: cs).drop pat.length)
    else
      c :: replaceAux pat repl fuel cs

/-- Python `str.replace(pat, repl)`: replace every occurrence, scanning left
to right without overlap. -/
def pyReplace (s pat repl : String) : String :=
  String.mk (replaceAux pat.data repl.data s.data.length s.data)

/-- Digits-with-underscores grammar shared by Python `int()`/`float()`
literals: non-empty, starts and ends with a digit, an underscore only
between digits (no two in a row). -/
def digitsOk : List Char → Bool
  | [] => false
  | c :: cs =>
    c.isDigit && go cs
where
  go : List Char → Bool
    | [] => true
    | '_' :: c :: cs => c.isDigit && go cs
    | '_' :: [] => false
    | c :: cs => c.isDigit && go cs

/-- Numeric value of a digit group, ignoring underscores. -/
def digitsVal (cs : List Char) : Nat :=
  cs.foldl (fun acc c => if c = '_' then acc else acc * 10 + (c.toNat - '0'.toNat)) 0

/-- Number of digits in a group (underscores not counted). -/
def digitsLen (cs : List Char) : Nat :=
  (cs.filter (· ≠ '_')).length

/-- Python `int(s)` on a string: optional surrounding whitespace, optional
sign, then decimal digits (underscores allowed between digits).
Returns `none` where Python raises `ValueError`. -/
def pyInt? (s : String) : Option Int :=
  let cs := (s.data.dropWhile pyIsSpace).reverse.dropWhile pyIsSpace |>.reverse
  match cs with
  | '+' :: rest => if digitsOk rest then some (digitsVal rest) else none
  | '-' :: rest => if digitsOk rest then some (-(digitsVal rest : Int)) else none
  | rest => if digitsOk rest then some (digitsVal rest) else none

/-- Split a character list at the first `e`/`E`, for float exponents. -/
def splitExp : List Char → List Char × Option (List Char)
  | [] => ([], none)
  | c :: cs =>
    if c = 'e' || c = 'E' then ([], some cs)
    else
      let (pre, post) := splitExp cs
      (c :: pre, post)

/-- Split a character list at the first `.`. -/
def splitDot : List Char → List Char × Option (List Char)
  | [] => ([], none)
  | c :: cs =>
    if c = '.' then ([], some cs)
    else
      let (pre, post) := splitDot cs
      (c :: pre, post)

/-- Value of a signed exponent group as used after `e`. -/
def expVal? (cs : List Char) : Option Int :=
  match cs with
  | '+' :: rest => if digitsOk rest then some (digitsVal rest) else none
  | '-' :: rest => if digitsOk rest then some (-(digitsVal rest : Int)) else none
  | rest => if digitsOk rest then some (digitsVal rest) else none

/-- Mantissa `intpart[.fracpart]` as an exact numerator/denominator pair
(denominator a power of ten), requiring at least one digit overall and
well-formed digit groups. -/
def mantissa? (cs : List Char) : Option (Nat × Nat) :=
  let (ip, fp) := splitDot cs
  match fp with
  | none => if digitsOk ip then some (digitsVal ip, 1) else none
  | some f =>
    let ipOk := ip.isEmpty || digitsOk ip
    let fpOk := f.isEmpty || digitsOk f
    if ipOk && fpOk && !(ip.isEmpty && f.isEmpty) then
      some (digitsVal ip * 10 ^ digitsLen f + digitsVal f, 10 ^ digitsLen f)
    else none

/-- Python `float(s)` over the finite decimal grammar, as an exact rational:
optional whitespace and sign, `digits[.digits]` or `.digits`, optional
`e`/`E` exponent.  (`inf`/`nan` are not modelled; the program never parses
them.)  Returns `none` where Python raises `ValueError`.  The rational is
assembled with integer arithmetic and a single `mkRat`. -/
def pyFloat? (s : String) : Option ℚ :=
  let cs := (s.data.dropWhile pyIsSpace).reverse.dropWhile pyIsSpace |>.reverse
  let (signedMant, sign) :=
    match cs with
    | '+' :: rest => (rest, (1 : Int))
    | '-' :: rest => (rest, (-1 : Int))
    | rest => (rest, (1 : Int))
  let (mant, expPart) := splitExp signedMant
  match mantissa? mant with
  | none => none
  | some (n, d) =>
    match expPart with
    | none => some (mkRat (sign * n) d)
    | some e =>
      match expVal? e with
      | none => none
      | some ev =>
        if 0 ≤ ev then some (mkRat (sign * n * 10 ^ ev.toNat) d)
        else some (mkRat (sign * n) (d * 10 ^ (-ev).toNat))

/-- `to_float_fr(x, default)`: strip, drop no-break spaces and spaces, turn
`,` into `.`, then `float(...)`; any failure yields `default`. -/
def to_float_fr (x : Option String) (default : Option ℚ) : Option ℚ :=
  match x with
  | none => default
  | some s =>
    let t := pyReplace (pyReplace (pyReplace (pyStrip s) " " "") " " "") "," "."
    match pyFloat? t with
    | some v => some v
    | none => default

/-- `to_int_fr(x, default)`: strip, drop no-break spaces, spaces and commas,
then `int(...)`; any failure yields `default`. -/
def to_int_fr (x : Option String) (default : Option Int) : Option Int :=
  match x with
  | none => default
  | some s =>
    let t := pyReplace (pyReplace (pyReplace (pyStrip s) " " "") " " "") "," ""
    match pyInt? t with
    | some v => some v
    | none => default

/-! ### JSON values (results of Python `json.loads`) -/

inductive Json where
  | null
  | bool (b : Bool)
  | num (n : Int)
  | str (s : String)
  | arr (elems : List Json)
  | obj (fields : List (String × Json))

mutual

/-- Structural equality of JSON values, Python `==` on the values this
program compares (catalog ids are strings in practice). -/
def Json.eqb : Json → Json → Bool
  | .null, .null => true
  | .bool a, .bool b => a == b
  | .num a, .num b => a == b
  | .str a, .str b => a == b
  | .arr xs, .arr ys => Json.eqbArr xs ys
  | .obj xs, .obj ys => Json.eqbObj xs ys
  | _, _ => false

def Json.eqbArr : List Json → List Json → Bool
  | [], [] => true
  | x :: xs, y :: ys => Json.eqb x y && Json.eqbArr xs ys
  | _, _ => false

def Json.eqbObj : List (String × Json) → List (String × Json) → Bool
  | [], [] => true
  | (k1, v1) :: xs, (k2, v2) :: ys => k1 == k2 && Json.eqb v1 v2 && Json.eqbObj xs ys
  | _, _ => false

end

mutual

/-- Python `repr` of a parsed-JSON value (string escaping inside quotes is
not modelled; the program's diagnostics never depend on it). -/
def Json.pyRepr : Json → String
  | .null => "None"
  | .bool b => if b then "True" else "False"
  | .num n => toString n
  | .str s => "\x27" ++ s ++ "\x27"
  | .arr xs => "[" ++ Json.pyReprArr xs ++ "]"
  | .obj kvs => "\x7b" ++ Json.pyReprObj kvs ++ "\x7d"

def Json.pyReprArr : List Json → String
  | [] => ""
  | [x] => Json.pyRepr x
  | x :: xs => Json.pyRepr x ++ ", " ++ Json.pyReprArr xs

def Json.pyReprObj : List (String × Json) → String
  | [] => ""
  | [(k, v)] => "\x27" ++ k ++ "\x27: " ++ Json.pyRepr v
  | (k, v) :: kvs => "\x27" ++ k ++ "\x27: " ++ Json.pyRepr v ++ ", " ++ Json.pyReprObj kvs

end

/-- Python `str` of a parsed-JSON value, as an f-string renders it. -/
def Json.pyStr : Json → String
  | .str s => s
  | j => Json.pyRepr j

/-- Python `dict.get(k)` on a parsed JSON object (keys are unique). -/
def Json.lookup (kvs : List (String × Json)) (k : String) : Option Json :=
  match kvs with
  | [] => none
  | (k1, v) :: rest => if k1 == k then some v else Json.lookup rest k

/-- Python truthiness of a parsed-JSON value. -/
def Json.truthy : Json → Bool
  | .null => false
  | .bool b => b
  | .num n => n != 0
  | .str s => !s.isEmpty
  | .arr xs => !xs.isEmpty
  | .obj kvs => !kvs.isEmpty

/-! ### Model catalog loader -/

/-- Outcome of `path.read_text` + `json.loads` on the catalog file:
`unreadable` covers an I/O error or malformed JSON (the exception is
raised before anything in the `try` body assigns). -/
inductive CatalogSrc where
  | unreadable
  | parsed (data : Json)

/-- The `for item in ...` loop body of `load_models_from_json`: collect
`(id, label)` for truthy ids; `none` models an exception escaping the loop
(`item.get` on a non-dict). -/
def collectModels : List Json → Option (List (Json × Json))
  | [] => some []
  | item :: rest =>
    match item with
    | .obj kvs =>
      let mid := (Json.lookup kvs "id").getD .null
      let label := (Json.lookup kvs "label").getD mid
      match collectModels rest with
      | none => none
      | some tail => some (if mid.truthy then (mid, label) :: tail else tail)
    | _ => none

/-- What Python iteration over `data.get("models", [])` yields: a list
iterates its elements, a string its one-character substrings, a dict its
keys; anything else raises (`none`). -/
def iterItems : Json → Option (List Json)
  | .arr xs => some xs
  | .str s => some (s.data.map (fun c => Json.str (String.mk [c])))
  | .obj kvs => some (kvs.map (fun kv => Json.str kv.1))
  | _ => none

/-- `load_models_from_json`: returns `(default_model, models_list)`.  Any
exception inside the `try` falls back to the single hard-coded entry,
keeping whatever `default_model` had been assigned by then; afterwards the
default is prepended when absent from a non-empty list. -/
def load_models_from_json (src : CatalogSrc) : Json × List (Json × Json) :=
  let d0 : Json := .str "meta-llama/llama-3.1-70b-instruct"
  let fallbackList (dm : Json) : List (Json × Json) :=
    [(dm, .str "Llama 3.1 70B Instruct (Meta)")]
  let (dm, ml) :=
    match src with
    | .unreadable => (d0, fallbackList d0)
    | .parsed data =>
      match data with
      | .obj kvs =>
        let dm1 := (Json.lookup kvs "default").getD d0
        let modelsVal := (Json.lookup kvs "models").getD (.arr [])
        match iterItems modelsVal with
        | none => (dm1, fallbackList dm1)
        | some items =>
          match collectModels items with
          | none => (dm1, fallbackList dm1)
          | some ml => (dm1, ml)
      | _ => (d0, fallbackList d0)
  let ml2 :=
    if !ml.isEmpty && !(ml.map Prod.fst).any (fun mid => Json.eqb mid dm) then
      (dm, Json.str (Json.pyStr dm)) :: ml
    else ml
  (dm, ml2)

/-! ### Generation client -/

def OPENROUTER_URL : String := "https://openrouter.ai/api/v1/chat/completions"

/-- The single POST issued by `call_openrouter`: headers plus the JSON
payload fields.  `authorization` is the f-string `Bearer {os.getenv(...)}`
rendered at call time. -/
structure HttpRequest where
  url : String
  authorization : String
  contentType : String
  httpReferer : String
  xTitle : String
  model : String
  systemContent : String
  userContent : String
  temperature : ℚ
  max_tokens : Int
  stream : Bool

/-- Upstream reply: HTTP status, raw body text, and the result of
`r.json()` (`none` when the body is not valid JSON and `r.json()` raises). -/
structure HttpResponse where
  status : Nat
  text : String
  json : Option Json

/-- How an invocation of the client can fail: the deliberate
`RuntimeError` carrying the upstream status and diagnostic, or a raw
exception escaping (`r.json()` on a malformed 200 body, or a
`KeyError`/`TypeError`/`IndexError`/`AttributeError` while extracting the
first choice). -/
inductive PyError where
  | runtimeError (msg : String)
  | jsonDecodeError
  | extractionError (what : String)

/-- `data["choices"][0]["message"]["content"].strip()`, with every failing
lookup modelled as the raw exception it raises. -/
def extract_content (data : Json) : Except PyError String :=
  match data with
  | .obj kvs =>
    match Json.lookup kvs "choices" with
    | none => .error (.extractionError "choices")
    | some choices =>
      match choices with
      | .arr (c0 :: _) =>
        match c0 with
        | .obj ckvs =>
          match Json.lookup ckvs "message" with
          | none => .error (.extractionError "message")
          | some msg =>
            match msg with
            | .obj mkvs =>
              match Json.lookup mkvs "content" with
              | none => .error (.extractionError "content")
              | some content =>
                match content with
                | .str s => .ok (pyStrip s)
                | _ => .error (.extractionError "strip")
            | _ => .error (.extractionError "message-subscript")
        | _ => .error (.extractionError "choice-subscript")
      | _ => .error (.extractionError "choices-index")
  | _ => .error (.extractionError "data-subscript")

/-- `call_openrouter(model_id, prompt, temperature, max_tokens)` against a
response oracle: builds headers and payload, posts exactly once, then
either raises `RuntimeError` on a non-200 status (diagnostic is the parsed
JSON if the body parses, else the raw text) or extracts and trims the
first choice.  Returns the issued requests alongside the outcome. -/
def call_openrouter (apiKey : Option String) (model_id : String) (prompt : String)
    (temperature : ℚ) (max_tokens : Int) (respond : HttpRequest → HttpResponse) :
    List HttpRequest × Except PyError String :=
  let req : HttpRequest := {
    url := OPENROUTER_URL
    authorization := "Bearer " ++ (match apiKey with | some k => k | none => "None")
    contentType := "application/json"
    httpReferer := "http://localhost"
    xTitle := "Contract-UI"
    model := model_id
    systemContent := "Tu es un assistant juridique et tu rédiges des contrats complets et soignés."
    userContent := prompt
    temperature := temperature
    max_tokens := max_tokens
    stream := false }
  let r := respond req
  let result : Except PyError String :=
    if r.status ≠ 200 then
      let err := match r.json with
        | some j => Json.pyStr j
        | none => r.text
      .error (.runtimeError ("OpenRouter " ++ toString r.status ++ ": " ++ err))
    else
      match r.json with
      | none => .error .jsonDecodeError
      | some data => extract_content data
  ([req], result)

/-! ### Prompt builder -/

/-- The `params` dict built by `generate`: the four text fields are
stripped strings, the three numeric fields are `to_int_fr` results (so
possibly `None`). -/
structure RawParams where
  tenant_name : String
  landlord_name : String
  rent : Option Int
  security_deposit : Option Int
  duration_months : Option Int
  address : String
  start_date : String

/-- How an f-string renders `params[k]` for a numeric field: the integer,
or `None`. -/
def pyStrOfOptInt : Option Int → String
  | some n => toString n
  | none => "None"

/-- `build_prompt(p)`: the fixed f-string template embedding all seven
fields.  The `.strip()` of the source acts on the template's fixed ends
and is applied here by dropping its leading and trailing newline. -/
def build_prompt (p : RawParams) : String :=
  "Tu es un assistant juridique. Génère un contrat de location (contrat de bail) clair et professionnel.\n\nParamètres:\n- LOCATAIRE: "
  ++ p.tenant_name
  ++ "\n- BAILLEUR: " ++ p.landlord_name
  ++ "\n- LOYER_MENSUEL: " ++ pyStrOfOptInt p.rent ++ " MAD"
  ++ "\n- DEPOT_DE_GARANTIE: " ++ pyStrOfOptInt p.security_deposit ++ " MAD"
  ++ "\n- DUREE_MOIS: " ++ pyStrOfOptInt p.duration_months ++ " mois"
  ++ "\n- ADRESSE: " ++ p.address
  ++ "\n- DATE_DEBUT: " ++ p.start_date
  ++ "\n\nExigences de sortie:\n- Rédige le contrat COMPLET en français, style formel (1–2 pages).\n- Pas de JSON ni de code block. Retourne du TEXTE pur prêt à copier.\n- Inclure: identité des parties, objet/adresse du bien, durée/renouvellement, loyer et paiement,\n  dépôt de garantie, obligations bailleur/locataire, réparations/charges, résiliation/préavis,\n  état des lieux, clause de juridiction/applicable, signatures (placeholders)."

/-! ### Document exporters -/

/-- Python `str.split(sep)` for a non-empty separator, over characters;
fuel is one unit per consumed character, `s.length` suffices. -/
def pySplitList (sep : List Char) : Nat → List Char → List (List Char)
  | _, [] => [[]]
  | 0, s => [s]
  | fuel + 1, c :: cs =>
    if sep.isPrefixOf (c :: cs) then
      [] :: pySplitList sep fuel ((c :: cs).drop sep.length)
    else
      match pySplitList sep fuel cs with
      | seg :: rest => (c :: seg) :: rest
      | [] => [[c]]

/-- Python `s.split(sep)` with a non-empty separator. -/
def pySplit (s sep : String) : List String :=
  (pySplitList sep.data s.data.length s.data).map String.mk

/-- The document built by `make_docx`: one level-0 heading, then the body
paragraphs as `python-docx` receives them, in `add_paragraph` order. -/
structure DocxDoc where
  heading : String
  headingLevel : Nat
  paragraphs : List String

/-- `make_docx(title, text)`: heading is the title; the body is split on
blank lines and each piece is stripped and appended in order. -/
def make_docx (title text : String) : DocxDoc :=
  { heading := title
    headingLevel := 0
    paragraphs := (pySplit text "\n\n").map pyStrip }

/-- A `reportlab` story element: a styled paragraph, or a spacer whose
height is recorded in centimetres. -/
inductive Flowable where
  | par (content : String) (style : String)
  | spacer (width : ℚ) (heightCm : ℚ)

/-- The document built by `make_pdf`: A4 page, uniform 2 cm margins, and
the story in `append` order. -/
structure PdfDoc where
  pagesize : String
  leftMarginCm : ℚ
  rightMarginCm : ℚ
  topMarginCm : ℚ
  bottomMarginCm : ℚ
  story : List Flowable

/-- `make_pdf(title, text)`: a Title-style block and a spacer, then for
each blank-line-separated piece a Normal-style paragraph (inner newlines
turned into `<br/>`) followed by a spacer. -/
def make_pdf (title text : String) : PdfDoc :=
  { pagesize := "A4"
    leftMarginCm := 2
    rightMarginCm := 2
    topMarginCm := 2
    bottomMarginCm := 2
    story := .par title "Title" :: .spacer 1 (mkRat 1 2) ::
      (pySplit text "\n\n").foldr
        (fun para acc => .par (pyReplace para "\n" "<br/>") "Normal" :: .spacer 1 (mkRat 3 10) :: acc)
        [] }

/-- Selects the text of a Normal-style paragraph block. -/
def normalSel : Flowable → Option String
  | .par t "Normal" => some t
  | _ => none

/-- The texts of the Normal-style paragraph blocks of a story, in order:
the body paragraphs as rendered, excluding the title block and spacers. -/
def pdfNormalPars (d : PdfDoc) : List String :=
  d.story.filterMap normalSel

/-! ### The `/generate` handler -/

/-- The form fields `generate` reads; `none` is an absent field. -/
structure GenerateForm where
  tenant_name : Option String
  landlord_name : Option String
  rent : Option String
  security_deposit : Option String
  duration_months : Option String
  address : Option String
  start_date : Option String
  model_id : Option String
  model_id_custom : Option String
  temperature : Option String

/-- The `params` dict as `generate` builds it: text fields default to `""`
and are stripped, numeric fields go through `to_int_fr` with default
`None`. -/
def buildParams (form : GenerateForm) : RawParams :=
  { tenant_name := pyStrip (form.tenant_name.getD "")
    landlord_name := pyStrip (form.landlord_name.getD "")
    rent := to_int_fr form.rent none
    security_deposit := to_int_fr form.security_deposit none
    duration_months := to_int_fr form.duration_months none
    address := pyStrip (form.address.getD "")
    start_date := pyStrip (form.start_date.getD "") }

/-- `params[k]` for the four text keys of the `missing` comprehension. -/
def stringFieldVal (p : RawParams) : String → String
  | "tenant_name" => p.tenant_name
  | "landlord_name" => p.landlord_name
  | "address" => p.address
  | "start_date" => p.start_date
  | _ => ""

/-- `params[k]` for the three numeric keys of the `invalid` comprehension. -/
def numFieldVal (p : RawParams) : String → Option Int
  | "rent" => p.rent
  | "security_deposit" => p.security_deposit
  | "duration_months" => p.duration_months
  | _ => none

/-- `[k for k in [...] if not params[k]]`: the falsy (empty) text fields. -/
def missingFields (p : RawParams) : List String :=
  ["tenant_name", "landlord_name", "address", "start_date"].filter
    (fun k => !(pyTruthyStr (stringFieldVal p k)))

/-- `[k for k in [...] if params[k] is None]`: the unparseable numeric
fields. -/
def invalidFields (p : RawParams) : List String :=
  ["rent", "security_deposit", "duration_months"].filter
    (fun k => (numFieldVal p k).isNone)

/-- The flash text `generate` builds from the two failure lists. -/
def validationMsg (missing invalid : List String) : String :=
  let parts :=
    (if !missing.isEmpty then ["Champs manquants : " ++ String.intercalate ", " missing] else [])
    ++ (if !invalid.isEmpty then
        ["Champs numériques invalides : " ++ String.intercalate ", " invalid] else [])
  String.intercalate " — " parts

/-- Model selection of `generate`: `(form.get("model_id") or "").strip()`;
the sentinel `__custom__` switches to the custom text field (no default
fallback there), otherwise an empty choice falls back to the catalog
default. -/
def selectModel (model_id_field model_id_custom_field : Option String)
    (defaultModel : String) : String :=
  let model_choice := pyStrip (model_id_field.getD "")
  if model_choice == "__custom__" then pyStrip (model_id_custom_field.getD "")
  else if model_choice == "" then defaultModel
  else model_choice

/-- `str(e)` as flashed by `generate`'s `except` arm.  Only the
`RuntimeError` text is prescribed by the source; for raw exceptions the
flashed text is the interpreter's own message, summarised here. -/
def PyError.flashText : PyError → String
  | .runtimeError msg => msg
  | .jsonDecodeError => "Expecting value"
  | .extractionError what => what

/-- The three outcomes of `POST /generate`: redirect after validation
failure, redirect after a generation exception, or the result view. -/
inductive GenerateResponse where
  | validationRedirect (flashMsg : String)
  | errorRedirect (flashMsg : String)
  | resultView (contract_text : String) (params : RawParams) (model_id : String)
      (temperature : ℚ)

/-- The `generate` handler: build and validate params, pick the model and
temperature, build the prompt, call the client once, and render.  Returns
the issued requests alongside the response. -/
def generate (form : GenerateForm) (apiKey : Option String) (defaultModel : String)
    (respond : HttpRequest → HttpResponse) : List HttpRequest × GenerateResponse :=
  let params := buildParams form
  let missing := missingFields params
  let invalid := invalidFields params
  if !missing.isEmpty || !invalid.isEmpty then
    ([], .validationRedirect (validationMsg missing invalid))
  else
    let model_id := selectModel form.model_id form.model_id_custom defaultModel
    -- to_float_fr is called with default 0.4, so its result is always
    -- `some`; `getD` only materialises that value.
    let temperature := (to_float_fr form.temperature (some (mkRat 2 5))).getD (mkRat 2 5)
    let prompt := build_prompt params
    let (reqs, result) := call_openrouter apiKey model_id prompt temperature 1600 respond
    match result with
    | .error e => (reqs, .errorRedirect e.flashText)
    | .ok contract_text => (reqs, .resultView contract_text params model_id temperature)

/-! ### Download handlers -/

/-- Outcome of a download route: redirect with a flash, or a file
attachment with its name and MIME type. -/
inductive DownloadResponse (α : Type) where
  | redirect (flashMsg : String)
  | file (doc : α) (download_name : String) (mimetype : String)

/-- `POST /download-docx`: reject blank text, otherwise export. -/
def download_docx_no_db (contract_text : Option String) : DownloadResponse DocxDoc :=
  let text := contract_text.getD ""
  if !(pyTruthyStr (pyStrip text)) then
    .redirect "Pas de contrat à télécharger."
  else
    .file (make_docx "Contrat de location" text) "contrat.docx"
      "application/vnd.openxmlformats-officedocument.wordprocessingml.document"

/-- `POST /download-pdf`: reject blank text, otherwise export. -/
def download_pdf_no_db (contract_text : Option String) : DownloadResponse PdfDoc :=
  let text := contract_text.getD ""
  if !(pyTruthyStr (pyStrip text)) then
    .redirect "Pas de contrat à télécharger."
  else
    .file (make_pdf "Contrat de location" text) "contrat.pdf" "application/pdf"

/-! ### Concrete fixtures -/

/-- A fully valid form submission, the baseline for concrete tests. -/
def baseForm : GenerateForm :=
  { tenant_name := some "Alice"
    landlord_name := some "Bob"
    rent := some "7000"
    security_deposit := some "7000"
    duration_months := some "12"
    address := some "1 rue X"
    start_date := some "2025-01-01"
    model_id := none
    model_id_custom := none
    temperature := none }

/-- An upstream 200 reply whose body is the well-formed single-choice
completion with content `" X "`. -/
def okResponse : HttpResponse :=
  { status := 200
    text := ""
    json := some (.obj [("choices",
      .arr [.obj [("message", .obj [("content", .str " X ")])]])]) }

/-! ### Substring containment -/

/-- `sub` occurs verbatim inside `s`. -/
def StrContains (s sub : String) : Prop := ∃ pre post, s = pre ++ sub ++ post

theorem strContains_base (a b c : String) : StrContains ((a ++ b) ++ c) b :=
  ⟨a, c, rfl⟩

theorem string_append_empty (s : String) : s ++ "" = s := by
  cases s with
  | mk data => show String.mk (data ++ []) = String.mk data; rw [List.append_nil]

theorem strContains_last (a b : String) : StrContains (a ++ b) b :=
  ⟨a, "", by rw [string_append_empty]⟩

theorem strContains_snoc (s b c : String) (h : StrContains s b) : StrContains (s ++ c) b := by
  obtain ⟨pre, post, rfl⟩ := h
  exact ⟨pre, post ++ c, by rw [String.append_assoc, String.append_assoc]⟩

/-! ### Claim theorems -/

/-- C1, counterexample.  The claim says that with the API credential
environment variable unset no HTTP request is issued; in fact
`call_openrouter` never checks the credential, and at this concrete input
it issues exactly one request. -/
theorem c1_counterexample :
    (call_openrouter none "meta-llama/llama-3.1-70b-instruct" "prompt" (mkRat 2 5) 1600
      (fun _ => { status := 200, text := "", json := none })).1.length = 1 := rfl

/-- C1, amended.  With the credential unset, every invocation of the
Generation Client still issues exactly one HTTP request, whose
Authorization header is the literal `Bearer None` (the f-string rendering
of the missing variable); no configuration failure happens before the
network call. -/
theorem c1_amended (model_id prompt : String) (temperature : ℚ) (max_tokens : Int)
    (respond : HttpRequest → HttpResponse) :
    (call_openrouter none model_id prompt temperature max_tokens respond).1.map
      (fun r => r.authorization) = ["Bearer None"] := rfl

/-- C2, counterexample.  The claim says rent and deposit inputs accept `,`
or `.` as a decimal separator; in fact they are normalised by `to_int_fr`,
so `"1500.50"` is rejected (sentinel `None`) and `"1500,50"` is read as
the integer `150050`, not as `1500.50`. -/
theorem c2_counterexample :
    (buildParams { baseForm with rent := some "1500.50" }).rent = none ∧
    (buildParams { baseForm with security_deposit := some "1500,50" }).security_deposit
      = some 150050 :=
  ⟨by decide, by decide⟩

/-- C2, amended.  Rent and security-deposit inputs are normalised by the
integer normaliser `to_int_fr`, which strips `,` as a thousands separator
(`"1500,50"` yields `150050`) and rejects a `.` decimal, yielding the
`None` sentinel so the field is reported invalid; only the float
normaliser `to_float_fr` (used for the temperature field) accepts either
`,` or `.` as decimal separator (`3001/2 = 1500.5`). -/
theorem c2_amended (form : GenerateForm) :
    (buildParams form).rent = to_int_fr form.rent none ∧
    (buildParams form).security_deposit = to_int_fr form.security_deposit none ∧
    to_int_fr (some "1500,50") none = some 150050 ∧
    to_int_fr (some "1500.50") none = none ∧
    to_float_fr (some "1500,50") none = some (mkRat 3001 2) ∧
    to_float_fr (some "1500.50") none = some (mkRat 3001 2) :=
  ⟨rfl, rfl, by decide, by decide, by decide, by decide⟩

/-- The Normal-style paragraphs of the body part of a pdf story are the
source pieces in order, newlines rendered as `<br/>`. -/
theorem pdfBody_pars (l : List String) :
    (l.foldr
      (fun para acc => Flowable.par (pyReplace para "\n" "<br/>") "Normal" ::
        Flowable.spacer 1 (mkRat 3 10) :: acc)
      ([] : List Flowable)).filterMap normalSel
    = l.map (fun para => pyReplace para "\n" "<br/>") := by
  induction l with
  | nil => rfl
  | cons p rest ih =>
    simp only [List.foldr_cons, List.filterMap_cons, List.map_cons]
    rw [← ih]
    rfl

/-- C5.  Both exporters split the body on blank-line boundaries and emit
one block per piece in the original order — the DOCX paragraph texts are
the stripped pieces, the PDF Normal-style blocks are the pieces with
inner newlines turned into `<br/>` — and on the concrete body
`"Para1.\n\nPara2 line1\nPara2 line2."` each produces exactly two blocks
in that order. -/
theorem c5_exporters :
    (∀ title text,
      (make_docx title text).paragraphs = (pySplit text "\n\n").map pyStrip ∧
      pdfNormalPars (make_pdf title text)
        = (pySplit text "\n\n").map (fun para => pyReplace para "\n" "<br/>")) ∧
    (make_docx "Contrat de location" "Para1.\n\nPara2 line1\nPara2 line2.").paragraphs
      = ["Para1.", "Para2 line1\nPara2 line2."] ∧
    pdfNormalPars (make_pdf "Contrat de location" "Para1.\n\nPara2 line1\nPara2 line2.")
      = ["Para1.", "Para2 line1<br/>Para2 line2."] := by
  refine ⟨fun title text => ⟨rfl, ?_⟩, rfl, rfl⟩
  show (Flowable.par title "Title" :: Flowable.spacer 1 (mkRat 1 2) :: _).filterMap normalSel = _
  rw [List.filterMap_cons, List.filterMap_cons]
  exact pdfBody_pars (pySplit text "\n\n")

/-- C3, counterexample.  The claim says a malformed response body yields a
generation error carrying the upstream status; in fact on HTTP 200 with an
unparseable body the raw `r.json()` exception propagates, with no status
attached. -/
theorem c3_counterexample :
    (call_openrouter (some "sk-key") "m" "p" (mkRat 2 5) 1600
      (fun _ => { status := 200, text := "not json", json := none })).2
      = .error .jsonDecodeError := rfl

/-- C3, amended.  On any status other than 200 the client fails with the
deliberate `RuntimeError` whose message carries the upstream status and
the diagnostic payload (parsed body if it parses, raw text otherwise); on
HTTP 200 with an unparseable body the raw `r.json()` exception propagates
instead; on HTTP 200 with body `{choices:[{message:{content: s}}]}` the
client returns `s` trimmed. -/
theorem c3_amended (apiKey : Option String) (model_id prompt : String)
    (temperature : ℚ) (max_tokens : Int) (resp : HttpResponse) :
    (resp.status ≠ 200 →
      ∃ msg, (call_openrouter apiKey model_id prompt temperature max_tokens (fun _ => resp)).2
          = .error (.runtimeError msg) ∧
        StrContains msg (toString resp.status) ∧
        StrContains msg (match resp.json with | some j => Json.pyStr j | none => resp.text)) ∧
    (resp.status = 200 → resp.json = none →
      (call_openrouter apiKey model_id prompt temperature max_tokens (fun _ => resp)).2
        = .error .jsonDecodeError) ∧
    (∀ s rest, resp.status = 200 →
      resp.json = some (.obj [("choices",
        .arr (.obj [("message", .obj [("content", .str s)])] :: rest))]) →
      (call_openrouter apiKey model_id prompt temperature max_tokens (fun _ => resp)).2
        = .ok (pyStrip s)) := by
  obtain ⟨st, tx, js⟩ := resp
  refine ⟨fun h => ?_, fun h hj => ?_, fun s rest h hj => ?_⟩
  · cases js with
    | none =>
      refine ⟨"OpenRouter " ++ toString st ++ ": " ++ tx, ?_, ?_, ?_⟩
      · simp only [call_openrouter]
        rw [if_pos h]
      · exact strContains_snoc _ _ _ (strContains_base _ _ _)
      · exact strContains_last _ _
    | some j =>
      refine ⟨"OpenRouter " ++ toString st ++ ": " ++ Json.pyStr j, ?_, ?_, ?_⟩
      · simp only [call_openrouter]
        rw [if_pos h]
      · exact strContains_snoc _ _ _ (strContains_base _ _ _)
      · exact strContains_last _ _
  · subst h; subst hj; rfl
  · subst h; subst hj; rfl

/-- C3, amended, witness at HTTP 400 with an unparseable body and at
HTTP 200 with the well-formed single-choice body. -/
theorem c3_amended_witness :
    (∃ msg, (call_openrouter (some "sk-key") "m" "p" (mkRat 2 5) 1600
        (fun _ => { status := 400, text := "bad request", json := none })).2
        = .error (.runtimeError msg) ∧
      StrContains msg (toString (400 : Nat)) ∧
      StrContains msg "bad request") ∧
    (call_openrouter (some "sk-key") "m" "p" (mkRat 2 5) 1600 (fun _ => okResponse)).2
      = .ok "X" := by
  constructor
  · exact (c3_amended (some "sk-key") "m" "p" (mkRat 2 5) 1600
      { status := 400, text := "bad request", json := none }).1 (by decide)
  · have h := (c3_amended (some "sk-key") "m" "p" (mkRat 2 5) 1600 okResponse).2.2
      " X " [] rfl rfl
    rw [h]
    rfl

/-- C4.  Validation is one pass over all seven fields: the `missing` list
holds exactly the empty text fields among tenant_name, landlord_name,
address, start_date; the `invalid` list holds exactly the unparseable
numeric fields among rent, security_deposit, duration_months; and
`generate` redirects with the validation flash exactly when one of the two
lists is non-empty (so every failing field is reported at once, never just
the first). -/
theorem c4_validation (form : GenerateForm) :
    (∀ k, k ∈ missingFields (buildParams form) ↔
      k ∈ ["tenant_name", "landlord_name", "address", "start_date"] ∧
      stringFieldVal (buildParams form) k = "") ∧
    (∀ k, k ∈ invalidFields (buildParams form) ↔
      k ∈ ["rent", "security_deposit", "duration_months"] ∧
      numFieldVal (buildParams form) k = none) ∧
    (∀ apiKey dm respond,
      (∃ msg, (generate form apiKey dm respond).2 = .validationRedirect msg) ↔
      (missingFields (buildParams form) ≠ [] ∨ invalidFields (buildParams form) ≠ [])) := by
  refine ⟨fun k => ?_, fun k => ?_, fun apiKey dm respond => ?_⟩
  · simp [missingFields, List.mem_filter, pyTruthyStr, String.isEmpty_iff]
  · simp [invalidFields, List.mem_filter, Option.isNone_iff_eq_none]
  · constructor
    · rintro ⟨msg, hmsg⟩
      by_contra hno
      rw [not_or, not_ne_iff, not_ne_iff] at hno
      obtain ⟨hm, hi⟩ := hno
      rw [generate, if_neg (by rw [hm, hi]; decide)] at hmsg
      rcases hres : call_openrouter apiKey (selectModel form.model_id form.model_id_custom dm)
          (build_prompt (buildParams form))
          ((to_float_fr form.temperature (some (mkRat 2 5))).getD (mkRat 2 5)) 1600 respond
        with ⟨reqs, result⟩
      simp only [hres] at hmsg
      cases result <;> simp at hmsg
    · intro hfail
      have hc : (!(missingFields (buildParams form)).isEmpty
          || !(invalidFields (buildParams form)).isEmpty) = true := by
        rcases hfail with h | h <;>
          simp [List.isEmpty_iff, h]
      exact ⟨_, by rw [generate, if_pos hc]⟩

/-- C4, witness: with an empty tenant name and an unparseable rent, both
failures are reported together and generation is blocked. -/
theorem c4_witness :
    "tenant_name" ∈ missingFields (buildParams
      { baseForm with tenant_name := some "", rent := some "abc" }) ∧
    "rent" ∈ invalidFields (buildParams
      { baseForm with tenant_name := some "", rent := some "abc" }) ∧
    (∃ msg, (generate { baseForm with tenant_name := some "", rent := some "abc" }
      none "dm" (fun _ => okResponse)).2 = .validationRedirect msg) := by
  have h := c4_validation { baseForm with tenant_name := some "", rent := some "abc" }
  exact ⟨(h.1 "tenant_name").mpr ⟨by decide, by decide⟩,
         (h.2.1 "rent").mpr ⟨by decide, by decide⟩,
         (h.2.2 none "dm" (fun _ => okResponse)).mpr (Or.inl (by decide))⟩

/-- C6.  The integer normaliser sends `"7 000"`, `"7,000"`, `"7000"` to
`7000`; the float normaliser sends `"0,4"`, `"0.4"`, `" 0.4 "` to `2/5 =
0.4`; and on unparseable input each returns the supplied default sentinel
instead of raising. -/
theorem c6_normalizers :
    to_int_fr (some "7 000") none = some 7000 ∧
    to_int_fr (some "7,000") none = some 7000 ∧
    to_int_fr (some "7000") none = some 7000 ∧
    to_float_fr (some "0,4") none = some (mkRat 2 5) ∧
    to_float_fr (some "0.4") none = some (mkRat 2 5) ∧
    to_float_fr (some " 0.4 ") none = some (mkRat 2 5) ∧
    to_int_fr (some "abc") none = none ∧
    to_float_fr (some "abc") none = none ∧
    to_int_fr (some "12.5") (some 99) = some 99 ∧
    to_float_fr (some "1.2.3") (some (mkRat 2 5)) = some (mkRat 2 5) :=
  ⟨by decide, by decide, by decide, by decide, by decide, by decide,
   by decide, by decide, by decide, by decide⟩

/-- C7.  `build_prompt` is a pure deterministic function of the validated
parameters, and its output contains every one of the seven field values
verbatim (numeric fields as their decimal rendering). -/
theorem c7_build_prompt (p : RawParams) (r d m : Int)
    (hr : p.rent = some r) (hd : p.security_deposit = some d)
    (hm : p.duration_months = some m) :
    (∀ q : RawParams, q = p → build_prompt q = build_prompt p) ∧
    StrContains (build_prompt p) p.tenant_name ∧
    StrContains (build_prompt p) p.landlord_name ∧
    StrContains (build_prompt p) (toString r) ∧
    StrContains (build_prompt p) (toString d) ∧
    StrContains (build_prompt p) (toString m) ∧
    StrContains (build_prompt p) p.address ∧
    StrContains (build_prompt p) p.start_date := by
  refine ⟨fun q hq => by rw [hq], ?_, ?_, ?_, ?_, ?_, ?_, ?_⟩ <;>
    simp only [build_prompt, hr, hd, hm, pyStrOfOptInt] <;>
    repeat
      first
        | exact strContains_base _ _ _
        | exact strContains_last _ _
        | apply strContains_snoc

/-- A concrete validated parameter set. -/
def sampleParams : RawParams :=
  { tenant_name := "Alice"
    landlord_name := "Bob"
    rent := some 7000
    security_deposit := some 7000
    duration_months := some 12
    address := "1 rue X"
    start_date := "2025-01-01" }

/-- C7, witness at a concrete validated parameter set. -/
theorem c7_witness :
    StrContains (build_prompt sampleParams) "Alice" ∧
    StrContains (build_prompt sampleParams) (toString (7000 : Int)) ∧
    StrContains (build_prompt sampleParams) "2025-01-01" := by
  have h := c7_build_prompt sampleParams 7000 7000 12 rfl rfl rfl
  exact ⟨h.2.1, h.2.2.2.1, h.2.2.2.2.2.2.2⟩

/-- C9.  The download routes reject a missing, empty or whitespace-only
contract text with the flash message and a redirect — no exporter runs —
and export exactly the corresponding document for non-blank text. -/
theorem c9_download_guards (t : Option String) :
    (pyStrip (t.getD "") = "" →
      download_docx_no_db t = .redirect "Pas de contrat à télécharger." ∧
      download_pdf_no_db t = .redirect "Pas de contrat à télécharger.") ∧
    (pyStrip (t.getD "") ≠ "" →
      download_docx_no_db t
        = .file (make_docx "Contrat de location" (t.getD "")) "contrat.docx"
          "application/vnd.openxmlformats-officedocument.wordprocessingml.document" ∧
      download_pdf_no_db t
        = .file (make_pdf "Contrat de location" (t.getD "")) "contrat.pdf"
          "application/pdf") := by
  constructor
  · intro h
    constructor <;>
      simp [download_docx_no_db, download_pdf_no_db, pyTruthyStr, String.isEmpty_iff, h]
  · intro h
    constructor <;>
      simp [download_docx_no_db, download_pdf_no_db, pyTruthyStr, String.isEmpty_iff, h]

/-- C9, witness: a missing field redirects, non-blank text exports. -/
theorem c9_witness :
    download_docx_no_db none = .redirect "Pas de contrat à télécharger." ∧
    download_pdf_no_db (some "Texte du contrat")
      = .file (make_pdf "Contrat de location" "Texte du contrat") "contrat.pdf"
        "application/pdf" :=
  ⟨((c9_download_guards none).1 (by decide)).1,
   ((c9_download_guards (some "Texte du contrat")).2 (by decide)).2⟩

/-- C10.  Model selection in `generate`: an absent, empty or blank
model_id falls back to the catalog default; but when model_id is the
`__custom__` sentinel and the custom field is blank, the chosen model id
is the empty string — no fallback to the default — and that choice is
exactly what the issued request carries. -/
theorem c10_model_selection (dm : String) (cu : Option String) :
    selectModel none cu dm = dm ∧
    selectModel (some "") cu dm = dm ∧
    (∀ s, pyStrip s = "" → selectModel (some s) cu dm = dm) ∧
    (∀ c, pyStrip (c.getD "") = "" → selectModel (some "__custom__") c dm = "") ∧
    selectModel (some "__custom__") (some "   ") dm = "" ∧
    (∀ form apiKey respond,
      missingFields (buildParams form) = [] →
      invalidFields (buildParams form) = [] →
      (generate form apiKey dm respond).1.map (fun r => r.model)
        = [selectModel form.model_id form.model_id_custom dm]) := by
  refine ⟨rfl, rfl, fun s h => ?_, fun c h => ?_, rfl, fun form apiKey respond hm hi => ?_⟩
  · simp [selectModel, h]
  · have h1 : pyStrip "__custom__" = "__custom__" := rfl
    simp [selectModel, h1, h]
  · rw [generate, if_neg (by rw [hm, hi]; decide)]
    rcases hres : call_openrouter apiKey (selectModel form.model_id form.model_id_custom dm)
        (build_prompt (buildParams form))
        ((to_float_fr form.temperature (some (mkRat 2 5))).getD (mkRat 2 5)) 1600 respond
      with ⟨reqs, result⟩
    have hreqs : reqs.map (fun r => r.model)
        = [selectModel form.model_id form.model_id_custom dm] := by
      have := congrArg Prod.fst hres
      simp only [call_openrouter] at this
      rw [← this]
      rfl
    simp only [hres]
    cases result <;> simpa using hreqs

/-- C10, witness: with model_id `__custom__` and a blank custom field, the
selected id is empty and the issued request carries the empty model id,
not the default. -/
theorem c10_witness :
    selectModel (some "__custom__") (some " ") "meta-llama/llama-3.1-70b-instruct" = "" ∧
    (generate { baseForm with model_id := some "__custom__", model_id_custom := some " " }
        (some "sk-key") "meta-llama/llama-3.1-70b-instruct"
        (fun _ => okResponse)).1.map (fun r => r.model) = [""] := by
  have h := c10_model_selection "meta-llama/llama-3.1-70b-instruct" (some " ")
  constructor
  · exact h.2.2.2.1 (some " ") (by decide)
  · have h6 := h.2.2.2.2.2
      { baseForm with model_id := some "__custom__", model_id_custom := some " " }
      (some "sk-key") (fun _ => okResponse) (by decide) (by decide)
    rw [h6]
    rfl

/-- C8.  When the catalog file is unreadable or its contents are malformed
JSON, `load_models_from_json` raises nothing and returns the hard-coded
default model id together with the single hard-coded fallback entry. -/
theorem c8_catalog_fallback :
    load_models_from_json .unreadable =
      (.str "meta-llama/llama-3.1-70b-instruct",
       [(.str "meta-llama/llama-3.1-70b-instruct",
         .str "Llama 3.1 70B Instruct (Meta)")]) := rfl

end ContractApp
